import Mathlib

/-!
Shallow embedding of the AI-DnD world/command orchestration core.

Source files embedded here:
  * `entities/items.py`   — `ItemType`, `ItemRarity`, `ItemEffect`, `Item` and `Item.use`
  * `core/player.py`      — `Player` and its methods
  * `entities/npcs.py`    — `NPC`, `NPC.take_damage`, `NPCFactory.calculate_xp_reward`
  * `core/location.py`    — `Location`, `Location.get_npc`, exits and items
  * `core/game_world.py`  — combat handler, combat initiation, movement, item
    take/use handlers, dialog handler
  * `ai/generator.py` + `prompts/prompts.py` — the content-generation facade

Modelling conventions:
  * Python `int` is `Int`; Python `//` (floor division) is `Int.fdiv`.
  * Python dicts used as keyed records become association lists
    (`List (String × _)`) with first-match lookup, which matches insertion
    order semantics of the source.
  * Randomness (dice rolls, `random.random()`, `random.uniform`,
    `random.sample`) and the generative backend are oracles: their outputs
    are explicit parameters, so theorems quantify over every draw.
  * CPython reference semantics: where the source mutates an object that is
    aliased inside a list, the embedding updates the list entry at the same
    index.
-/

namespace AiDnD

/-- Python membership test on a dict modelled as an association list. -/
def containsKey : List (String × α) → String → Bool
  | [], _ => false
  | kv :: rest, k => kv.1 == k || containsKey rest k

/-- Python dict assignment `d[k] = v`: replace the first binding of `k`, or
append a new binding (dicts preserve insertion order). -/
def setAssoc (l : List (String × α)) (k : String) (v : α) : List (String × α) :=
  match l with
  | [] => [(k, v)]
  | kv :: rest =>
    if kv.1 == k then (k, v) :: rest else kv :: setAssoc rest k v

/-- Python `del d[k]`: drop the first binding of `k`. -/
def eraseKey (l : List (String × α)) (k : String) : List (String × α) :=
  match l with
  | [] => []
  | kv :: rest => if kv.1 == k then rest else kv :: eraseKey rest k

/-- Python substring test `needle in hay` on strings. -/
def strContains (hay needle : String) : Bool :=
  (List.range (hay.data.length + 1)).any
    (fun i => needle.data.isPrefixOf (hay.data.drop i))

/-- Python `str.lower()` (structural form of `String.toLower`). -/
def pyLower (s : String) : String :=
  ⟨s.data.map Char.toLower⟩

/-- Python `str.startswith(pre)` (structural form of `String.startsWith`). -/
def pyStartsWith (s pre : String) : Bool :=
  pre.data.isPrefixOf s.data

/-- Python `str.strip()`: drop whitespace at both ends (structural form of
`String.trim`). -/
def pyStrip (s : String) : String :=
  ⟨(((s.data.dropWhile Char.isWhitespace).reverse.dropWhile Char.isWhitespace).reverse)⟩

/-- Split a character list at every whitespace character. -/
def splitWsAux : List Char → List Char → List (List Char)
  | [], acc => [acc.reverse]
  | c :: cs, acc =>
    if c.isWhitespace then acc.reverse :: splitWsAux cs []
    else splitWsAux cs (c :: acc)

/-- Python `str.split()` with no argument: split on whitespace and drop the
empty pieces. -/
def pySplit (s : String) : List String :=
  ((splitWsAux s.data []).map (fun cs => String.mk cs)).filter (fun w => !(w == ""))

/-- `ItemType` enum from `entities/items.py`. -/
inductive ItemType where
  | weapon | armor | potion | key | treasure | scroll | tool | quest | magical
deriving DecidableEq

/-- The `.value` string of each `ItemType` member. -/
def itemTypeValue : ItemType → String
  | .weapon => "weapon"
  | .armor => "armor"
  | .potion => "potion"
  | .key => "key"
  | .treasure => "treasure"
  | .scroll => "scroll"
  | .tool => "tool"
  | .quest => "quest"
  | .magical => "magical"

/-- `ItemRarity` enum from `entities/items.py`. -/
inductive ItemRarity where
  | common | uncommon | rare | legendary
deriving DecidableEq

/-- `ItemEffect` dataclass from `entities/items.py`; the field `type` keeps the
source name. -/
structure ItemEffect where
  type : String
  value : Int
  duration : Option Int := none
  description : String := ""
deriving DecidableEq

/-- One entry of `Item.requirements`: the three keys `Item._check_requirements`
inspects. -/
inductive ReqEntry where
  | min_level (v : Int)
  | item_required (iid : String)
  | skill_required (s : String)
deriving DecidableEq

/-- `Item` dataclass from `entities/items.py`. The unused free-form
`attributes` dict is omitted; every other field is kept, so the derived
equality is the dataclass structural `==` of the source. -/
structure Item where
  id : String
  name : String
  description : String
  item_type : ItemType
  rarity : ItemRarity := .common
  effect_value : Int := 0
  uses_remaining : Option Int := none
  is_taken : Bool := false
  is_used : Bool := false
  requirements : List ReqEntry := []
  effects : List ItemEffect := []
deriving DecidableEq

/-- Runtime attribute names of `Player` (dataclass fields and methods), used to
model `hasattr(player, "has_" + value)` in `Item._check_requirements`. -/
def playerAttrNames : List String :=
  ["name", "hp", "max_hp", "attack_power", "defense", "xp", "level",
   "inventory", "current_location_id", "attributes", "status_effects",
   "attack", "take_damage", "heal", "add_xp", "level_up", "add_item",
   "remove_item", "has_item", "get_inventory_description",
   "add_status_effect", "remove_status_effect", "update_status_effects",
   "equip_item", "get_state", "perform_skill_check"]

/-- `Player` dataclass from `core/player.py`. The `attributes` dict holds only
the equipment slots that the source ever reads
(`attributes.get('equipped_weapon')` / `attributes.get('equipped_armor')`),
modelled as the two `Option` fields; a missing key reads as `none`. -/
structure Player where
  name : String
  hp : Int := 50
  max_hp : Int := 50
  attack_power : Int := 5
  defense : Int := 2
  xp : Int := 0
  level : Int := 1
  inventory : List Item := []
  current_location_id : Option String := none
  equipped_weapon : Option Item := none
  equipped_armor : Option Item := none
  status_effects : List (String × Int) := []
deriving DecidableEq

namespace Player

/-- `Player.attack`; `base_roll` is the oracle for `DiceRoller.roll("1d8")`. -/
def attack (p : Player) (base_roll : Int) : Int :=
  let damage := base_roll + p.attack_power
  if base_roll == 8 then damage * 2 else damage

/-- `Player.take_damage`: returns the updated player and the defeated flag. -/
def take_damage (p : Player) (amount : Int) : Player × Bool :=
  let actual_damage := max 1 (amount - p.defense)
  let hp2 := max 0 (p.hp - actual_damage)
  ({ p with hp := hp2 }, decide (hp2 ≤ 0))

/-- `Player.heal`: returns the updated player and the amount healed. -/
def heal (p : Player) (amount : Int) : Player × Int :=
  let hp2 := min p.max_hp (p.hp + amount)
  ({ p with hp := hp2 }, hp2 - p.hp)

/-- `Player.level_up`. -/
def level_up (p : Player) : Player :=
  let max_hp2 := p.max_hp + 10
  { p with level := p.level + 1, max_hp := max_hp2, hp := max_hp2,
           attack_power := p.attack_power + 2, defense := p.defense + 1 }

/-- `Player.add_xp`: adds the amount, then checks the threshold once. -/
def add_xp (p : Player) (amount : Int) : Player × Bool :=
  let p1 := { p with xp := p.xp + amount }
  if p1.xp ≥ p1.level * 100 then (p1.level_up, true) else (p1, false)

/-- `Player.add_item`. -/
def add_item (p : Player) (item : Item) : Player :=
  { p with inventory := p.inventory ++ [item] }

/-- Pop the first item with the given id from a list (`Player.remove_item`
body). -/
def removeById : List Item → String → List Item × Option Item
  | [], _ => ([], none)
  | it :: rest, iid =>
    if it.id == iid then (rest, some it)
    else
      let r := removeById rest iid
      (it :: r.1, r.2)

/-- `Player.remove_item`: removes and returns the first inventory item with
the given id. -/
def remove_item (p : Player) (item_id : String) : Player × Option Item :=
  let r := removeById p.inventory item_id
  ({ p with inventory := r.1 }, r.2)

/-- `Player.has_item`. -/
def has_item (p : Player) (item_id : String) : Bool :=
  p.inventory.any (fun it => it.id == item_id)

/-- `Player.add_status_effect`. -/
def add_status_effect (p : Player) (effect : String) (duration : Int) : Player :=
  { p with status_effects := setAssoc p.status_effects effect duration }

/-- `Player.remove_status_effect`. -/
def remove_status_effect (p : Player) (effect : String) : Player :=
  { p with status_effects := eraseKey p.status_effects effect }

/-- `Player.update_status_effects`: decrement every duration, delete the
entries that reach `≤ 0`, and return the expired effect names. -/
def update_status_effects (p : Player) : Player × List String :=
  let decremented := p.status_effects.map (fun kv => (kv.1, kv.2 - 1))
  ({ p with status_effects := decremented.filter (fun kv => decide (0 < kv.2)) },
   (decremented.filter (fun kv => decide (kv.2 ≤ 0))).map (fun kv => kv.1))

/-- `Player.equip_item`: returns the updated player, the success flag and the
message. The `==` comparisons are the dataclass structural equality of the
source. -/
def equip_item (p : Player) (item : Item) : Player × Bool × String :=
  if itemTypeValue item.item_type == "weapon" then
    if p.equipped_weapon == some item then
      (p, false, "The " ++ item.name ++ " is already equipped.")
    else
      let p1 :=
        match p.equipped_weapon with
        | some old_weapon =>
          { p with attack_power := p.attack_power - old_weapon.effect_value }
        | none => p
      ({ p1 with equipped_weapon := some item,
                 attack_power := p1.attack_power + item.effect_value },
       true, "You equip the " ++ item.name ++ ".")
  else if itemTypeValue item.item_type == "armor" then
    if p.equipped_armor == some item then
      (p, false, "The " ++ item.name ++ " is already equipped.")
    else
      let p1 :=
        match p.equipped_armor with
        | some old_armor =>
          { p with defense := p.defense - old_armor.effect_value }
        | none => p
      ({ p1 with equipped_armor := some item,
                 defense := p1.defense + item.effect_value },
       true, "You equip the " ++ item.name ++ ".")
  else
    (p, false, "You can\x27t equip the " ++ item.name ++ ".")

end Player

/-- Result dict of `Item.use`: success flag and message. -/
structure UseResult where
  success : Bool
  message : String
deriving DecidableEq

/-- `Item._check_requirements`; `hasattr(player, "has_" + value)` is modelled
against the listed runtime attributes of `Player`. -/
def checkRequirements (reqs : List ReqEntry) (p : Player) : Bool :=
  reqs.all (fun r =>
    match r with
    | .min_level v => decide (p.level ≥ v)
    | .item_required iid => p.has_item iid
    | .skill_required s => ("has_" ++ s) ∈ playerAttrNames)

/-- `Item._consume_use`. -/
def Item.consume_use (it : Item) : Item :=
  match it.uses_remaining with
  | none => it
  | some n =>
    if n - 1 ≤ 0 then { it with uses_remaining := some (n - 1), is_used := true }
    else { it with uses_remaining := some (n - 1) }

/-- One step of the effect loop in `Item.use`. `if effect.duration:` is the
Python truthiness test: the branch runs when the duration is present and
nonzero. -/
def applyEffect (e : ItemEffect) (acc : Player × Bool × List String) :
    Player × Bool × List String :=
  let (p, success, messages) := acc
  if e.type == "heal" then
    let (p2, healing) := p.heal e.value
    if healing > 0 then (p2, true, messages ++ ["restore " ++ toString healing ++ " HP"])
    else (p2, success, messages)
  else if e.type == "buff" then
    match e.duration with
    | some d =>
      if d ≠ 0 then
        (p.add_status_effect e.description d, true, messages ++ [e.description])
      else (p, success, messages)
    | none => (p, success, messages)
  else if e.type == "damage_boost" then
    ({ p with attack_power := p.attack_power + e.value }, true,
     messages ++ ["increase attack power by " ++ toString e.value])
  else if e.type == "defense_boost" then
    ({ p with defense := p.defense + e.value }, true,
     messages ++ ["increase defense by " ++ toString e.value])
  else (p, success, messages)

/-- `Item.use`: returns the (possibly consumed) item, the updated player and
the result dict. The `location` argument of the source is never read, so it is
omitted. `self.uses_remaining == 0` is false when `uses_remaining` is `None`,
as in Python. -/
def Item.use (it : Item) (p : Player) : Item × Player × UseResult :=
  if it.is_used && it.uses_remaining == some 0 then
    (it, p, ⟨false, "The " ++ it.name ++ " has already been used up."⟩)
  else if !checkRequirements it.requirements p then
    (it, p, ⟨false, "You cannot use the " ++ it.name ++ " yet."⟩)
  else
    let (p2, success, messages) := it.effects.foldl (fun acc e => applyEffect e acc) (p, false, [])
    if success then
      (it.consume_use, p2, ⟨true,
        "You use the " ++ it.name ++ " and " ++ String.intercalate " and " messages ++ "."⟩)
    else
      (it, p2, ⟨false, "The " ++ it.name ++ " seems to have no effect."⟩)

/-- `NPCDifficulty` enum from `entities/npcs.py`. -/
inductive NPCDifficulty where
  | easy | normal | hard | boss
deriving DecidableEq

/-- `NPC` from `entities/npcs.py`. NPCs are plain classes (identity equality in
Python); only the fields read by the embedded handlers are kept
(`npc_type`, `behavior`, `faction_id` and the collection fields are never read
by them). -/
structure NPC where
  id : String
  name : String
  description : String
  hp : Int
  max_hp : Int
  attack_power : Int
  difficulty : NPCDifficulty := .normal
  defense : Int := 0
  level : Int := 1
  is_defeated : Bool := false
deriving DecidableEq

/-- `NPC.take_damage`: returns the updated NPC and the reduced damage. The
defeated flag is set (never cleared) when hp reaches 0. -/
def NPC.take_damage (n : NPC) (amount : Int) : NPC × Int :=
  let reduced_damage := max 1 (amount - n.defense)
  let hp2 := max 0 (n.hp - reduced_damage)
  ({ n with hp := hp2, is_defeated := if hp2 == 0 then true else n.is_defeated },
   reduced_damage)

/-- `NPC.heal`. -/
def NPC.heal (n : NPC) (amount : Int) : NPC × Int :=
  let hp2 := min n.max_hp (n.hp + amount)
  ({ n with hp := hp2 }, hp2 - n.hp)

/-- `NPCFactory.calculate_xp_reward`. The float multipliers 0.8/1.0/1.5/3.0
are represented exactly as the fractions 4/5, 1, 3/2, 3, and Python
`int(...)` truncation of the nonnegative product is integer division. -/
def calculate_xp_reward (npc : NPC) : Int :=
  let base_xp : Int := 10
  let level_bonus := npc.level * 5
  match npc.difficulty with
  | .easy => Int.fdiv ((base_xp + level_bonus) * 4) 5
  | .normal => base_xp + level_bonus
  | .hard => Int.fdiv ((base_xp + level_bonus) * 3) 2
  | .boss => (base_xp + level_bonus) * 3

/-- `Location` dataclass from `core/location.py`; `exits` and `state_changes`
are insertion-ordered dicts, kept as association lists. The fields not read by
any embedded handler (`secrets`, `searchable_features`) are omitted. -/
structure Location where
  id : String
  name : String
  description : String
  theme : String
  features : List String
  atmosphere : String
  npcs : List NPC := []
  items : List Item := []
  exits : List (String × String) := []
  state_changes : List (String × Bool) := []
  visited : Bool := false
  hidden_items : List Item := []
deriving DecidableEq

/-- Scan of `Location.get_npc`: first NPC whose lowered name equals the lowered
key and who is not defeated. -/
def findNpc : List NPC → String → Option NPC
  | [], _ => none
  | n :: rest, key =>
    if pyLower n.name == key && !n.is_defeated then some n else findNpc rest key

/-- Index variant of the same scan, used where the source goes on to mutate the
NPC object aliased inside `location.npcs`. -/
def findNpcIdx : List NPC → String → Nat → Option Nat
  | [], _, _ => none
  | n :: rest, key, i =>
    if pyLower n.name == key && !n.is_defeated then some i
    else findNpcIdx rest key (i + 1)

/-- `Location.get_npc`: `None` for an empty name (Python falsiness), otherwise
the first living NPC with a case-insensitive name match. -/
def Location.get_npc (loc : Location) (npc_name : String) : Option NPC :=
  if npc_name == "" then none else findNpc loc.npcs (pyLower npc_name)

/-- `Location.get_current_description`, built exactly as the source joins its
parts with single spaces. -/
def Location.get_current_description (loc : Location) : String :=
  let parts := [pyStrip loc.description]
  let parts := parts ++
    (if loc.features.isEmpty then []
     else ["Notable features include: " ++ String.intercalate ", " loc.features])
  let parts := parts ++ (if loc.atmosphere == "" then [] else [loc.atmosphere])
  let parts := parts ++
    ((loc.npcs.filter (fun n => !n.is_defeated)).map
      (fun n => "You see " ++ n.name ++ " here."))
  let parts := parts ++
    ((loc.items.filter (fun it => !it.is_taken)).map
      (fun it => "There is " ++ it.name ++ " here."))
  let parts := parts ++
    (if loc.exits.isEmpty then []
     else ["You can go: " ++ String.intercalate ", " (loc.exits.map (fun kv => kv.1))])
  String.intercalate " " parts

/-- JSON values as produced by `json.loads` in `ai/generator.py`. -/
inductive Json where
  | str (s : String)
  | num (n : Int)
  | bool (b : Bool)
  | null
  | arr (elems : List Json)
  | obj (fields : List (String × Json))

/-- Structural equality on JSON values (Python `==` on the parsed data). -/
def Json.beq : Json → Json → Bool
  | .str a, .str b => a == b
  | .num a, .num b => a == b
  | .bool a, .bool b => a == b
  | .null, .null => true
  | .arr [], .arr [] => true
  | .arr (a :: as), .arr (b :: bs) => Json.beq a b && Json.beq (.arr as) (.arr bs)
  | .obj [], .obj [] => true
  | .obj ((k, a) :: as), .obj ((l, b) :: bs) =>
    k == l && Json.beq a b && Json.beq (.obj as) (.obj bs)
  | _, _ => false

instance : BEq Json := ⟨Json.beq⟩

/-- `True` exactly when the value is a Python dict. -/
def Json.isObj : Json → Bool
  | .obj _ => true
  | _ => false

/-- Field lookup on a dict value (`response.get(field)`); `none` on non-dicts. -/
def Json.lookupField : Json → String → Option Json
  | .obj fields, k => List.lookup k fields
  | _, _ => none

/-- `True` when the value is a dict containing the key. -/
def Json.hasKey (j : Json) (k : String) : Bool :=
  (j.lookupField k).isSome

/-- Outcome of the backend call and JSON parse inside
`AIGenerator.generate_content`, the oracle the theorems quantify over:
`raised` = some step of the guarded block raised (network/backend error),
`text s` = the backend returned `s` and `json.loads` failed,
`parsed j` = the backend returned text that parsed to the value `j`. -/
inductive GenOutcome where
  | raised
  | text (s : String)
  | parsed (j : Json)

/-- Required fields and defaults of one entry of the `validators` table in
`AIGenerator._validate_response`. -/
structure Validator where
  required : List String
  defaults : List (String × Json)

/-- The `validators` table of `AIGenerator._validate_response`. -/
def validators : String → Option Validator
  | "location_description" =>
    some { required := ["name", "description", "theme", "features"],
           defaults :=
             [("name", .str "Unknown Area"),
              ("description", .str "A nondescript area stretches before you."),
              ("theme", .str "generic"),
              ("features", .arr []),
              ("atmosphere", .str "The air is still and quiet."),
              ("exits", .arr [.str "north", .str "south"])] }
  | "search_response" =>
    some { required := ["description"],
           defaults :=
             [("description", .str "You search but find nothing unusual."),
              ("discoveries", .arr [])] }
  | "examine_response" =>
    some { required := ["description"],
           defaults :=
             [("description", .str "You see nothing special."),
              ("features", .arr []),
              ("interactions", .arr [])] }
  | "action_response" =>
    some { required := ["description"],
           defaults :=
             [("description", .str "You proceed with your action."),
              ("success", .bool true),
              ("next_situation", .str "exploration")] }
  | _ => none

/-- The prompt kinds registered in `PromptManager.templates`
(`prompts/prompts.py`); only these have a template, every other kind falls
back to the generic instruction string. -/
def templateRegistered (kind : String) : Bool :=
  kind ∈ ["location_description", "location_population", "search_response",
          "examine_response", "action_response"]

/-- Python `field in response` for a JSON value: key membership on dicts,
element equality on lists, substring test on strings, `TypeError`
(`Except.error`) on the other types. -/
def pythonIn (field : String) : Json → Except Unit Bool
  | .obj fields => .ok (containsKey fields field)
  | .arr elems => .ok (elems.any (fun e => e == Json.str field))
  | .str s => .ok (strContains s field)
  | _ => .error ()

/-- Python `response[field] = v`: dict assignment, `TypeError` on everything
else. -/
def pythonSetItem (j : Json) (field : String) (v : Json) : Except Unit Json :=
  match j with
  | .obj fields => .ok (.obj (setAssoc fields field v))
  | _ => .error ()

/-- One pass of a `_validate_response` loop: fill `field` from `value` when it
is missing. -/
def fillMissing (acc : Json) (field : String) (value : Json) : Except Unit Json := do
  let present ← pythonIn field acc
  if present then pure acc else pythonSetItem acc field value

/-- One pass of the required-fields loop of `_validate_response`: the field's
default is looked up in the validator's defaults dict
(`validator['defaults'][field]`, a `KeyError` if absent) and filled in when
missing. -/
def fillRequired (defaults : List (String × Json)) (acc : Json) (field : String) :
    Except Unit Json :=
  match List.lookup field defaults with
  | some d => fillMissing acc field d
  | none => .error ()

/-- `AIGenerator._validate_response`: for a known prompt type, fill the
required fields from the declared defaults, then fill the remaining defaults;
an exception (`.error`) propagates to the caller's `except` clause.
A required field is looked up in the defaults dict of the validator
(`validator['defaults'][field]`, `KeyError` if absent). -/
def validateResponse (response : Json) (prompt_type : String) : Except Unit Json :=
  match validators prompt_type with
  | none => .ok response
  | some v => do
    let r1 ← v.required.foldlM (fillRequired v.defaults) response
    v.defaults.foldlM (fun acc fd => fillMissing acc fd.1 fd.2) r1

/-- `AIGenerator._format_non_json_response`. -/
def formatNonJsonResponse (text : String) (prompt_type : String) : Json :=
  if prompt_type == "location_description" then
    .obj [("name", .str "Unknown Area"),
          ("description", .str text),
          ("theme", .str "generic"),
          ("features", .arr [.str "path"]),
          ("atmosphere", .str "The area has a mysterious quality."),
          ("exits", .arr [.str "north", .str "south"])]
  else if prompt_type == "search_response" then
    .obj [("description", .str text), ("discoveries", .arr [])]
  else if prompt_type == "examine_response" then
    .obj [("description", .str text),
          ("features", .arr []),
          ("interactions", .arr [])]
  else
    .obj [("description", .str text),
          ("success", .bool true),
          ("next_situation", .str "exploration")]

/-- `AIGenerator._get_fallback_response`. -/
def getFallbackResponse (prompt_type : String) : Json :=
  if prompt_type == "location_description" then
    .obj [("name", .str "Mysterious Area"),
          ("description", .str "A mysterious area shrouded in uncertainty."),
          ("theme", .str "mysterious"),
          ("features", .arr [.str "shadows", .str "mist"]),
          ("atmosphere", .str "The air is thick with anticipation."),
          ("exits", .arr [.str "north", .str "south"])]
  else if prompt_type == "search_response" then
    .obj [("description", .str "Your search reveals nothing unusual."),
          ("discoveries", .arr [])]
  else if prompt_type == "examine_response" then
    .obj [("description", .str "You see nothing special about it."),
          ("features", .arr []),
          ("interactions", .arr [])]
  else if prompt_type == "action_response" then
    .obj [("description", .str "You proceed with your action."),
          ("success", .bool true),
          ("next_situation", .str "exploration")]
  else
    .obj [("description", .str "The situation continues normally."),
          ("success", .bool true),
          ("next_situation", .str "exploration")]

/-- Body of the `try:` block of `AIGenerator.generate_content` after the
backend/parse outcome is known: a raised backend call propagates, a non-JSON
text goes through `_format_non_json_response` (the inner `except` only
catches `JSONDecodeError`), a parsed value goes through `_validate_response`
whose exceptions propagate. -/
def generateContentCore (prompt_type : String) (o : GenOutcome) : Except Unit Json :=
  match o with
  | .raised => .error ()
  | .text s => .ok (formatNonJsonResponse s prompt_type)
  | .parsed j => validateResponse j prompt_type

/-- `AIGenerator.generate_content`: the outer `except Exception` turns every
failure into the kind-specific fallback envelope, so the function is total.
The parameter map only shapes the prompt string sent to the backend (whose
reply is the oracle `o`), never the returned structure. -/
def generateContent (prompt_type : String) (params : List (String × Json))
    (o : GenOutcome) : Json :=
  let _ := params
  match generateContentCore prompt_type o with
  | .ok r => r
  | .error _ => getFallbackResponse prompt_type

/-- Oracle for the random draws of a single combat call:
`playerRoll` is the `DiceRoller.roll("1d8")` result used by `Player.attack`;
`retreatDraw` is the `random.random()` value of the retreat branch;
`enemyDamage` and `enemyCrit` are the rolled damage and crit flag returned by
`NPC.attack()` (attack power scaled by `random.uniform(0.8, 1.2)` with a 10%
critical chance in the source). -/
structure CombatOracle where
  playerRoll : Int
  retreatDraw : Rat
  enemyDamage : Int
  enemyCrit : Bool

/-- Result dict of the command handlers (`message`, `next_situation` and the
optional `combat_effect` key). -/
structure ActionResult where
  message : String
  next_situation : String
  combat_effect : Option String := none
deriving DecidableEq

/-- The slice of `GameWorld` state the embedded handlers read and write:
the player, the location table and the two combat keys of `current_state`. -/
structure GameWorld where
  player : Player
  locations : List (String × Location) := []
  combat_active : Bool := false
  current_enemy : Option NPC := none
deriving DecidableEq

/-- `"\n".join(combat_text)`. -/
def joinLines (texts : List String) : String :=
  String.intercalate "\n" texts

/-- The dict returned by the `except` clause of
`GameWorld._handle_combat_action`. -/
def genericCombatError : ActionResult :=
  { message := "Something went wrong during combat.",
    next_situation := "exploration" }

/-- The status block appended at the end of a surviving combat exchange
(`game_world.py` lines 475–483; the identical block also ends
`_initiate_combat`). -/
def combatStatusLines (p : Player) (enemy : NPC) : List String :=
  ["\nYour HP: " ++ toString p.hp ++ "/" ++ toString p.max_hp,
   enemy.name ++ "\x27s HP: " ++ toString enemy.hp ++ "/" ++ toString enemy.max_hp,
   "\nAvailable combat commands:",
   "- attack: Strike your opponent",
   "- defend: Take a defensive stance (reduces damage)",
   "- use [item]: Use an item from your inventory",
   "- retreat: Try to flee from combat"]

/-- The enemy-turn block of `GameWorld._handle_combat_action` (lines 446–462):
the rolled damage is halved first (floor, min 1) when the player holds the
`defending` status effect, and `Player.take_damage` then subtracts defense
(min 1). Returns the updated player, the appended combat text and the
`combat_effect` value. -/
def enemyTurnStep (p : Player) (enemy : NPC) (texts : List String)
    (o : CombatOracle) : Player × List String × Option String :=
  let dmg0 := o.enemyDamage
  let (damage, texts1) :=
    if containsKey p.status_effects "defending" then
      (max 1 (Int.fdiv dmg0 2), texts ++ ["Your defensive stance reduces the damage!"])
    else (dmg0, texts)
  let (texts2, eff2) :=
    if o.enemyCrit then
      (texts1 ++ ["CRITICAL HIT! " ++ enemy.name ++ " strikes you for " ++
        toString damage ++ " damage!"], some "player_hit_critical")
    else
      (texts1 ++ [enemy.name ++ " attacks for " ++ toString damage ++ " damage!"],
       some "player_hit")
  let pr := p.take_damage damage
  (pr.1, texts2, eff2)

/-- Tail of `GameWorld._handle_combat_action` after the command branches.
`enemy_attack` is a Python local that some branches leave unassigned: `none`
models the unbound state, in which the `if enemy_attack:` test raises
`UnboundLocalError`, caught by the handler's `except` clause, which returns
the generic error dict (state mutated so far is kept). -/
def afterBranches (st : GameWorld) (enemy : NPC) (texts : List String)
    (eff : Option String) (enemy_attack : Option Bool) (o : CombatOracle) :
    GameWorld × ActionResult :=
  match enemy_attack with
  | none => (st, genericCombatError)
  | some b =>
    if b then
      let (p2, texts2, eff2) := enemyTurnStep st.player enemy texts o
      if p2.hp ≤ 0 then
        ({ st with player := p2 },
         { message := joinLines (texts2 ++
             ["You have been defeated!", "Your journey ends here..."]),
           next_situation := "game_over", combat_effect := some "player_die" })
      else
        ({ st with player := p2 },
         { message := joinLines (texts2 ++ combatStatusLines p2 enemy),
           next_situation := "combat", combat_effect := eff2 })
    else
      (st, { message := joinLines (texts ++ combatStatusLines st.player enemy),
             next_situation := "combat", combat_effect := eff })

/-- The `use` branch of `_handle_combat_action`: the Python `for` loop over
the live inventory with cursor `j`. `Player.remove_item` inside the loop
shrinks the list, so `fuel` (initially the inventory length, which never
grows) bounds the sweep; the guard `j < length` is the loop's real exit.
`Sum.inl` is the early `return` for weapon/armor matches, `Sum.inr` falls
through to the enemy-turn tail with the accumulated state. -/
def combatUseLoop (fuel : Nat) (item_name : String) (p : Player)
    (texts : List String) (eff : Option String) (enemy_attack : Option Bool)
    (j : Nat) :
    (Player × ActionResult) ⊕ (Player × List String × Option String × Option Bool) :=
  match fuel with
  | 0 => .inr (p, texts, eff, enemy_attack)
  | fuel + 1 =>
    if h : j < p.inventory.length then
      if pyLower (p.inventory.get ⟨j, h⟩).name == pyLower item_name then
        if (p.inventory.get ⟨j, h⟩).item_type == ItemType.weapon ||
           (p.inventory.get ⟨j, h⟩).item_type == ItemType.armor then
          .inl ((p.equip_item (p.inventory.get ⟨j, h⟩)).1,
            { message := joinLines (texts ++ [(p.equip_item (p.inventory.get ⟨j, h⟩)).2.2]),
              next_situation := "combat",
              combat_effect :=
                if (p.inventory.get ⟨j, h⟩).item_type == ItemType.weapon then
                  some "equip_weapon"
                else some "equip_armor" })
        else
          let (item2, p2, ur) := (p.inventory.get ⟨j, h⟩).use p
          let p3 := { p2 with inventory := p2.inventory.set j item2 }
          if ur.success then
            let p4 := (p3.remove_item item2.id).1
            combatUseLoop fuel item_name p4 (texts ++ [ur.message])
              (if strContains (pyLower (p.inventory.get ⟨j, h⟩).name) "potion" then
                 some "potion_use"
               else some "item_use")
              (some true) (j + 1)
          else
            combatUseLoop fuel item_name p3 texts eff enemy_attack (j + 1)
      else
        combatUseLoop fuel item_name p texts eff enemy_attack (j + 1)
    else .inr (p, texts, eff, enemy_attack)

/-- `GameWorld._handle_combat_action`. The `attack` branch never assigns the
local `enemy_attack`; when the enemy survives, the tail therefore passes
`none` and the call ends in the generic `except` result. -/
def handleCombatAction (command : String) (st : GameWorld) (o : CombatOracle) :
    GameWorld × ActionResult :=
  match st.current_enemy with
  | none =>
    ({ st with combat_active := false },
     { message := "No enemy to fight.", next_situation := "exploration" })
  | some enemy =>
    if pyStartsWith command "use" then
      let item_name := pyStrip (command.drop 4)
      match combatUseLoop st.player.inventory.length item_name st.player [] none none 0 with
      | .inl pr => ({ st with player := pr.1 }, pr.2)
      | .inr out =>
        afterBranches { st with player := out.1 } enemy out.2.1 out.2.2.1 out.2.2.2 o
    else if command == "attack" then
      let damage := st.player.attack o.playerRoll
      let (enemy2, _) := enemy.take_damage damage
      let texts := ["You strike " ++ enemy.name ++ " for " ++ toString damage ++ " damage!"]
      let eff :=
        if damage > 0 then
          -- `damage >= attack_power * 1.5` written over the integers
          if 2 * damage ≥ 3 * st.player.attack_power then some "critical_hit"
          else some "sword_hit"
        else some "sword_miss"
      if enemy2.is_defeated then
        let xp_gained := calculate_xp_reward enemy2
        let (p2, level_up) := st.player.add_xp xp_gained
        let texts2 := texts ++
          [enemy.name ++ " has been defeated!", "You gain " ++ toString xp_gained ++ " XP!"]
        let (texts3, eff2) :=
          if level_up then
            (texts2 ++ ["Level Up! You are now level " ++ toString p2.level ++ "!"],
             some "level_up")
          else (texts2, some "monster_die")
        ({ st with player := p2, combat_active := false, current_enemy := none },
         { message := joinLines texts3, next_situation := "exploration",
           combat_effect := eff2 })
      else
        afterBranches { st with current_enemy := some enemy2 } enemy2 texts eff none o
    else if command == "defend" then
      let p2 := st.player.add_status_effect "defending" 1
      afterBranches { st with player := p2 } enemy
        ["You take a defensive stance!"] (some "shield_block") (some true) o
    else if command == "retreat" then
      if o.retreatDraw < 1 / 2 then
        ({ st with combat_active := false, current_enemy := none },
         { message := "You successfully retreat from combat!",
           next_situation := "exploration", combat_effect := some "retreat_success" })
      else
        afterBranches st enemy ["You fail to retreat!"] (some "retreat_fail") (some true) o
    else
      afterBranches st enemy ["Invalid combat command!"] none (some true) o

/-- `GameWorld._initiate_combat`. The target NPC is located by index because
the source then mutates the object aliased inside `location.npcs`; the updated
location is written back to the world's location table. The unreachable
out-of-range arm returns the handler's `except` dict. -/
def initiateCombat (target_name : String) (loc : Location) (st : GameWorld)
    (o : CombatOracle) : GameWorld × ActionResult :=
  if target_name == "" then
    (st, { message := "What do you want to attack?", next_situation := "exploration" })
  else
    match findNpcIdx loc.npcs (pyLower target_name) 0 with
    | none =>
      (st, { message := "You don\x27t see " ++ target_name ++ " here to attack.",
             next_situation := "exploration" })
    | some i =>
      match loc.npcs.get? i with
      | none =>
        (st, { message := "Something went wrong trying to start combat.",
               next_situation := "exploration" })
      | some npc =>
        if npc.is_defeated then
          (st, { message := npc.name ++ " has already been defeated.",
                 next_situation := "exploration" })
        else
          let st1 := { st with combat_active := true, current_enemy := some npc }
          let texts :=
            ["\nCombat begins with " ++ npc.name ++ "!",
             "Your HP: " ++ toString st.player.hp ++ "/" ++ toString st.player.max_hp,
             npc.name ++ "\x27s HP: " ++ toString npc.hp ++ "/" ++ toString npc.max_hp]
          let damage := st.player.attack o.playerRoll
          let (npc2, _) := npc.take_damage damage
          let loc2 := { loc with npcs := loc.npcs.set i npc2 }
          let st2 := { st1 with current_enemy := some npc2,
                                locations := setAssoc st1.locations loc.id loc2 }
          let texts2 := texts ++
            ["You strike " ++ npc.name ++ " for " ++ toString damage ++ " damage!"]
          if npc2.is_defeated then
            let xp_gained := calculate_xp_reward npc2
            let (p2, level_up) := st2.player.add_xp xp_gained
            let texts3 := texts2 ++
              [npc.name ++ " has been defeated!",
               "You gain " ++ toString xp_gained ++ " XP!"]
            let texts4 :=
              if level_up then
                texts3 ++ ["Level Up! You are now level " ++ toString p2.level ++ "!"]
              else texts3
            ({ st2 with player := p2, combat_active := false, current_enemy := none },
             { message := joinLines texts4, next_situation := "exploration" })
          else
            let damage2 := o.enemyDamage
            let texts3 :=
              if o.enemyCrit then
                texts2 ++ ["CRITICAL HIT! " ++ npc.name ++ " strikes you for " ++
                  toString damage2 ++ " damage!"]
              else
                texts2 ++ [npc.name ++ " counter-attacks for " ++
                  toString damage2 ++ " damage!"]
            let pr : Player × Bool := st2.player.take_damage damage2
            if pr.1.hp ≤ 0 then
              ({ st2 with player := pr.1 },
               { message := joinLines (texts3 ++ ["You have been defeated!"]),
                 next_situation := "game_over" })
            else
              ({ st2 with player := pr.1 },
               { message := joinLines (texts3 ++ combatStatusLines pr.1 npc2),
                 next_situation := "combat" })

/-- Approximate rendering of Python `str()` for a JSON value, used only where
the source passes an arbitrary `.get` result into an f-string or message slot
(container renderings abbreviated; no theorem depends on them). -/
def pyStr : Json → String
  | .str s => s
  | .num n => toString n
  | .bool b => if b then "True" else "False"
  | .null => "None"
  | .arr _ => "[...]"
  | .obj _ => "\x7b...\x7d"

/-- `GameWorld._handle_dialog`. `o` is the backend oracle of the
`generate_content('dialog_response', ...)` call; the parameter map never
influences the returned envelope. A non-dict reply would make
`dialog_result.get` raise, which `handle_player_action`'s `except` turns into
its generic message. -/
def handleDialog (target : String) (loc : Location) (st : GameWorld)
    (o : GenOutcome) : GameWorld × ActionResult :=
  if target == "" then
    (st, { message := "Who do you want to talk to?", next_situation := "exploration" })
  else
    match loc.get_npc target with
    | none =>
      (st, { message := "You don\x27t see " ++ target ++ " here to talk to.",
             next_situation := "exploration" })
    | some npc =>
      if npc.is_defeated then
        (st, { message := npc.name ++ " is in no condition to talk.",
               next_situation := "exploration" })
      else
        match generateContent "dialog_response" [] o with
        | .obj fields =>
          let message :=
            match List.lookup "dialog" fields with
            | some v => pyStr v
            | none => npc.name ++ " acknowledges your presence."
          (st, { message := message, next_situation := "dialog" })
        | _ =>
          (st, { message := "Something went wrong with that action.",
                 next_situation := "exploration" })

/-- Oracle for the randomness and generated content of one movement call:
`genLocation` is the location produced (and stored) by `_generate_location`
when the destination does not exist yet — including its internal fallback, it
always returns a location; `sampleFeatures` is the `random.sample` draw of
`_handle_location_discovery`. -/
structure MoveOracle where
  genLocation : Location
  sampleFeatures : List String

/-- `GameWorld._can_move`. -/
def canMove (loc : Location) (direction : String) (p : Player) : Bool :=
  if (List.lookup (direction ++ "_locked") loc.state_changes).getD false then false
  else if containsKey p.status_effects "paralyzed" ||
          containsKey p.status_effects "stunned" then false
  else true

/-- `GameWorld._get_movement_restriction_message`. -/
def movementRestrictionMessage (loc : Location) (direction : String)
    (p : Player) : String :=
  if (List.lookup (direction ++ "_locked") loc.state_changes).getD false then
    "The way " ++ direction ++ " is locked or blocked."
  else if containsKey p.status_effects "paralyzed" then
    "You are paralyzed and cannot move!"
  else if containsKey p.status_effects "stunned" then
    "You are too stunned to move right now."
  else "Something prevents you from going " ++ direction ++ "."

/-- `GameWorld._handle_location_discovery`; `sample` is the `random.sample`
draw over the location's features. -/
def locationDiscovery (loc : Location) (sample : List String) : Option String :=
  let visible_items := loc.items.filter (fun it => !it.is_taken)
  let messages :=
    (if !visible_items.isEmpty then
       ["You notice: " ++ String.intercalate ", " (visible_items.map (fun it => it.name))]
     else []) ++
    (if !loc.features.isEmpty then
       ["What catches your eye: " ++ String.intercalate ", " sample]
     else [])
  if messages.isEmpty then none else some (joinLines messages)

/-- `GameWorld._handle_movement`. The direction is lowered first; an unknown
direction returns immediately with no state change. When the destination id is
missing from the location table, `_generate_location` builds and stores a
location (oracle `genLocation`); a `Location` object is always truthy, so the
`if not new_location` arm of the source is dead. The unreachable lookup-miss
arm returns the `except` dict of `handle_player_action`, which would catch the
`KeyError`. -/
def handleMovement (direction : String) (location : Location) (st : GameWorld)
    (o : MoveOracle) : GameWorld × ActionResult :=
  let direction := pyLower direction
  if !containsKey location.exits direction then
    (st, { message := "You cannot go " ++ direction ++ " from here.",
           next_situation := "exploration" })
  else if !canMove location direction st.player then
    (st, { message := movementRestrictionMessage location direction st.player,
           next_situation := "exploration" })
  else
    match List.lookup direction location.exits with
    | none =>
      (st, { message := "Something went wrong with that action.",
             next_situation := "exploration" })
    | some new_location_id =>
      let locs1 :=
        if containsKey st.locations new_location_id then st.locations
        else setAssoc st.locations new_location_id o.genLocation
      match List.lookup new_location_id locs1 with
      | none =>
        (st, { message := "Something went wrong with that action.",
               next_situation := "exploration" })
      | some new_location =>
        let p2 := { st.player with current_location_id := some new_location_id }
        let was_visited := new_location.visited
        let new_location2 := { new_location with visited := true }
        let locs2 := setAssoc locs1 new_location_id new_location2
        let messages := [new_location2.get_current_description]
        let messages :=
          if !was_visited then
            match locationDiscovery new_location2 o.sampleFeatures with
            | some m => messages ++ [m]
            | none => messages
          else messages
        ({ st with player := p2, locations := locs2 },
         { message := String.intercalate "\n\n" messages,
           next_situation := "exploration" })

/-- Strip the article prefixes `'the '`, `'a '`, `'an '` (each once, in the
source's loop order) from a normalized item name. -/
def dropArticles (s : String) : String :=
  let s := if pyStartsWith s "the " then s.drop 4 else s
  let s := if pyStartsWith s "a " then s.drop 2 else s
  if pyStartsWith s "an " then s.drop 3 else s

/-- The scan of `GameWorld._handle_item_take` over the location's item list:
first item that matches the normalized name exactly (case-insensitive, not yet
taken), or else partially (substring or all words contained, not yet taken);
returns the cursor index and the item. -/
def findTakeMatch : List Item → String → Nat → Option (Nat × Item)
  | [], _, _ => none
  | it :: rest, n, j =>
    if pyLower it.name == n && !it.is_taken then some (j, it)
    else if !it.is_taken &&
        (strContains (pyLower it.name) n ||
         (pySplit n).all (fun w => strContains (pyLower it.name) w)) then
      some (j, it)
    else findTakeMatch rest n (j + 1)

/-- `GameWorld._handle_item_take` together with `_pick_up_item`. The matched
item is flagged `is_taken` in place (aliased at its index), appended to the
inventory, and `location.items.remove(item)` drops the first structurally
equal element. -/
def handleItemTake (item_name : String) (loc : Location) (p : Player) :
    Location × Player × ActionResult :=
  if item_name == "" then
    (loc, p, { message := "What do you want to take?", next_situation := "exploration" })
  else
    let n := dropArticles (pyStrip (pyLower item_name))
    match findTakeMatch loc.items n 0 with
    | some ji =>
      let item2 := { ji.2 with is_taken := true }
      let p2 := p.add_item item2
      let loc2 := { loc with items := (loc.items.set ji.1 item2).erase item2 }
      (loc2, p2, { message := "You pick up the " ++ ji.2.name ++ ".",
                   next_situation := "exploration" })
    | none =>
      (loc, p, { message := "You don\x27t see " ++ n ++ " here.",
                 next_situation := "exploration" })

/-- The scan of `GameWorld._handle_item_use` over the inventory: first item
whose lowered name equals the normalized name, or else matches partially
(substring or all words contained); no taken-flag is consulted here. -/
def findUseMatch : List Item → String → Nat → Option (Nat × Item)
  | [], _, _ => none
  | it :: rest, n, j =>
    if pyLower it.name == n then some (j, it)
    else if strContains (pyLower it.name) n ||
        (pySplit n).all (fun w => strContains (pyLower it.name) w) then
      some (j, it)
    else findUseMatch rest n (j + 1)

/-- `GameWorld._handle_item_use` (outside combat). The used item is updated in
place at its index, and removed from the inventory by id when the use
succeeded; the `location` argument is passed to `Item.use` in the source but
never read. -/
def handleItemUse (item_name : String) (loc : Location) (p : Player) :
    Player × ActionResult :=
  let _ := loc
  if item_name == "" then
    (p, { message := "What do you want to use?", next_situation := "exploration" })
  else
    let n := dropArticles (pyStrip (pyLower item_name))
    match findUseMatch p.inventory n 0 with
    | some ji =>
      let (item2, p2, ur) := ji.2.use p
      let p3 := { p2 with inventory := p2.inventory.set ji.1 item2 }
      let p4 := if ur.success then (p3.remove_item ji.2.id).1 else p3
      (p4, { message := ur.message, next_situation := "exploration" })
    | none =>
      (p, { message := "You don\x27t have " ++ n ++ " to use.",
            next_situation := "exploration" })

/-- The name scan of the combat `use` branch, written with the same
fuel-bounded cursor as the loop: first inventory index (from `j`) whose
lowered item name equals the lowered use argument. -/
def firstNameMatch (fuel : Nat) (items : List Item) (n : String) (j : Nat) :
    Option (Nat × Item) :=
  match fuel with
  | 0 => none
  | fuel + 1 =>
    if h : j < items.length then
      if pyLower (items.get ⟨j, h⟩).name == pyLower n then
        some (j, items.get ⟨j, h⟩)
      else firstNameMatch fuel items n (j + 1)
    else none

/-- Enemy-turn damage formula as claim C3 words it: the player's defense is
subtracted from the rolled damage first (min 1), and the result is then halved
(floor, min 1) when the player is defending. Spec-side definition, to be
compared with the code. -/
def claimC3Damage (rolled defense : Int) (defending : Bool) : Int :=
  let after_def := max 1 (rolled - defense)
  if defending then max 1 (Int.fdiv after_def 2) else after_def

/-- Enemy-turn damage formula in the code's order: the rolled damage is halved
first when defending (floor, min 1), and defense is subtracted afterwards
(min 1). -/
def codeOrderDamage (rolled defense : Int) (defending : Bool) : Int :=
  max 1 ((if defending then max 1 (Int.fdiv rolled 2) else rolled) - defense)

/-- Test fixture: a fresh default player. -/
def aria : Player := { name := "Aria" }

/-- Test fixture: a combat NPC tough enough to survive an opening strike. -/
def goblin : NPC :=
  { id := "npc-goblin", name := "Goblin", description := "A sneering goblin.",
    hp := 100, max_hp := 100, attack_power := 4, defense := 0, level := 1 }

/-- Test fixture: active combat between the fresh player and the goblin. -/
def combatSt : GameWorld :=
  { player := aria, combat_active := true, current_enemy := some goblin }

/-- Test fixture: one concrete draw of the combat randomness. -/
def baseOracle : CombatOracle :=
  { playerRoll := 1, retreatDraw := 0, enemyDamage := 5, enemyCrit := false }

/-- Test fixture: the same draw with the retreat roll forced to exactly 0.5. -/
def halfDrawOracle : CombatOracle :=
  { playerRoll := 1, retreatDraw := 1 / 2, enemyDamage := 5, enemyCrit := false }

/-- Test fixture: the player mid-combat while holding the `defending` status
effect, with a noticeable defense score. -/
def defendingSt : GameWorld :=
  { player := { name := "Aria", hp := 30, defense := 4,
                status_effects := [("defending", 2)] },
    combat_active := true, current_enemy := some goblin }

/-- Test fixture: a healing potion as `ItemFactory.create_healing_potion`
builds it. -/
def healthPotion : Item :=
  { id := "it-hp", name := "Health Potion",
    description := "A magical potion that restores 20 HP",
    item_type := .potion, effect_value := 20, uses_remaining := some 1,
    effects := [{ type := "heal", value := 20, description := "restore 20 health" }],
    rarity := .rare }

/-- Test fixture: a second potion whose name strictly contains the first
one's. -/
def bigPotion : Item :=
  { id := "it-big", name := "big health potion",
    description := "A large red potion.",
    item_type := .potion, effect_value := 20, uses_remaining := some 1,
    effects := [{ type := "heal", value := 20, description := "restore 20 health" }],
    rarity := .rare }

/-- Test fixture: a weapon as `ItemFactory.create_weapon` builds it. -/
def woodenSword : Item :=
  { id := "it-sword", name := "Wooden Sword",
    description := "A crude weapon that adds 2 to your attack power",
    item_type := .weapon, effect_value := 2,
    effects := [{ type := "damage_boost", value := 2,
                  description := "increase attack power by 2" }] }

/-- Test fixture: a small location holding the two potions. -/
def clearing : Location :=
  { id := "loc-clearing", name := "Clearing", description := "A quiet clearing.",
    theme := "peaceful", features := [], atmosphere := "",
    items := [bigPotion, healthPotion], exits := [("south", "loc-south")] }

/-- Test fixture: a world outside combat. -/
def exploreSt : GameWorld := { player := aria }

/-- Test fixture: a player carrying only the wooden sword. -/
def swordCarrier : Player := { name := "Aria", inventory := [woodenSword] }

/-- Test fixture: active combat while carrying the wooden sword. -/
def swordCombatSt : GameWorld :=
  { player := swordCarrier, combat_active := true, current_enemy := some goblin }

/-- Test fixture: the goblin once defeated. -/
def deadGoblin : NPC := { goblin with hp := 0, is_defeated := true }

/-- Test fixture: a location whose only NPC is the defeated goblin. -/
def graveyard : Location :=
  { id := "loc-grave", name := "Graveyard", description := "A silent graveyard.",
    theme := "dark", features := [], atmosphere := "", npcs := [deadGoblin] }

/-- Test fixture: a movement oracle (never reached by the unknown-direction
branch). -/
def dummyMove : MoveOracle := { genLocation := clearing, sampleFeatures := [] }

/-- C1: evaluation at the failing input. For an `attack` command while combat
is active with a bound enemy that survives the strike (enemy hp 100, player
damage 6 → enemy hp 94), the handler reads the never-assigned local
`enemy_attack`; the caught `UnboundLocalError` produces the generic
"Something went wrong during combat." dict with `next_situation`
`exploration`, no counter-attack is resolved (player hp still 50), and the
combat flags are left dangling. -/
theorem attack_survivor_hits_unbound_local :
    handleCombatAction "attack" combatSt baseOracle =
      ({ combatSt with current_enemy := some { goblin with hp := 94 } },
       genericCombatError) ∧
    (handleCombatAction "attack" combatSt baseOracle).1.player.hp = 50 ∧
    (handleCombatAction "attack" combatSt baseOracle).1.combat_active = true := by
  decide

/-- C2: counterexample. A retreat attempted with the uniform draw exactly 0.5
(which is ≥ 0.5) fails in the code (`random.random() < 0.5` is the success
test): combat stays active with the enemy still bound, the result's
`next_situation` is `combat`, and the enemy turn is resolved (player hp
50 → 47) — contradicting the claim that every draw ≥ 0.5 succeeds. -/
theorem retreat_draw_half_fails :
    halfDrawOracle.retreatDraw ≥ 1 / 2 ∧
    (handleCombatAction "retreat" combatSt halfDrawOracle).2.next_situation = "combat" ∧
    (handleCombatAction "retreat" combatSt halfDrawOracle).1.combat_active = true ∧
    (handleCombatAction "retreat" combatSt halfDrawOracle).1.current_enemy = some goblin ∧
    (handleCombatAction "retreat" combatSt halfDrawOracle).1.player.hp = 47 := by
  have hlt : ¬(halfDrawOracle.retreatDraw < 1 / 2) := by
    simp [halfDrawOracle]
  have h1 : (pyStartsWith "retreat" "use") = false := by decide
  have h2 : ("retreat" == "attack") = false := by decide
  have h3 : ("retreat" == "defend") = false := by decide
  have hstep : handleCombatAction "retreat" combatSt halfDrawOracle =
      afterBranches combatSt goblin ["You fail to retreat!"]
        (some "retreat_fail") (some true) halfDrawOracle := by
    simp only [handleCombatAction, combatSt, h1, h2, h3, Bool.false_eq_true,
      if_false, beq_self_eq_true, if_true, hlt]
  refine ⟨?_, ?_, ?_, ?_, ?_⟩
  · rw [show halfDrawOracle.retreatDraw = 1 / 2 from rfl]
  · rw [hstep]; decide
  · rw [hstep]; decide
  · rw [hstep]; decide
  · rw [hstep]; decide

/-- C2 (amended): for a `retreat` command during active combat, whenever the
uniform draw is < 0.5 the retreat succeeds: combat ends (`combat_active`
false, `current_enemy` cleared), `next_situation` is `exploration`, and no
enemy turn is resolved (the whole state except the two combat flags is
unchanged). -/
theorem retreat_succeeds_iff_draw_lt_half (st : GameWorld) (o : CombatOracle)
    (e : NPC) (henemy : st.current_enemy = some e)
    (hdraw : o.retreatDraw < 1 / 2) :
    handleCombatAction "retreat" st o =
      ({ st with combat_active := false, current_enemy := none },
       { message := "You successfully retreat from combat!",
         next_situation := "exploration",
         combat_effect := some "retreat_success" }) := by
  have h1 : (pyStartsWith "retreat" "use") = false := by decide
  have h2 : ("retreat" == "attack") = false := by decide
  have h3 : ("retreat" == "defend") = false := by decide
  simp only [handleCombatAction, henemy, h1, h2, h3, Bool.false_eq_true,
    if_false, beq_self_eq_true, if_true, hdraw, if_pos]

/-- Witness for the amended C2 theorem at a concrete state and draw 0. -/
theorem retreat_succeeds_iff_draw_lt_half_witness :
    handleCombatAction "retreat" combatSt baseOracle =
      ({ combatSt with combat_active := false, current_enemy := none },
       { message := "You successfully retreat from combat!",
         next_situation := "exploration",
         combat_effect := some "retreat_success" }) :=
  retreat_succeeds_iff_draw_lt_half combatSt baseOracle goblin rfl
    (by norm_num [baseOracle])

/-- C3: counterexample. An invalid combat command while the player defends
with defense 4 against a rolled damage of 10: the code halves first
(10 → 5) and subtracts defense afterwards (max(1, 5 − 4) = 1), so hp drops
30 → 29 by exactly 1, while the claim's defense-first formula
max(1, max(1, 10 − 4) / 2) yields 3. -/
theorem enemy_turn_defense_order_differs :
    (handleCombatAction "dance" defendingSt
      { baseOracle with enemyDamage := 10 }).1.player.hp = 29 ∧
    claimC3Damage 10 4 true = 3 ∧
    defendingSt.player.hp -
      (handleCombatAction "dance" defendingSt
        { baseOracle with enemyDamage := 10 }).1.player.hp ≠
      claimC3Damage 10 4 true := by
  decide

/-- C3 (amended): in every enemy turn of the combat handler, the damage
applied to the player first halves the enemy's rolled damage (floor, min 1)
when the player holds the `defending` status effect, and then subtracts the
player's defense (floored at 1): the player's hp after the turn is exactly
`max 0 (hp − codeOrderDamage rolled defense defending)`. -/
theorem enemy_turn_applies_code_order (p : Player) (enemy : NPC)
    (texts : List String) (o : CombatOracle) :
    (enemyTurnStep p enemy texts o).1.hp =
      max 0 (p.hp - codeOrderDamage o.enemyDamage p.defense
        (containsKey p.status_effects "defending")) := by
  unfold enemyTurnStep codeOrderDamage Player.take_damage
  cases hc : containsKey p.status_effects "defending" <;>
    cases o.enemyCrit <;> simp [hc]

/-- C4: evaluation at the failing input. After a `defend` command the
`defending` effect is recorded with 1 round, but `update_status_effects` has
no caller anywhere in the source, so the effect is never removed: the very
next exchange (an invalid command here) still halves the enemy's damage
(hp 50 → 47 → 44, a drop of max(1, max(1, 10/2) − 2) = 3 both times) and the
effect is still present afterwards — it is carried across more than one
exchange. -/
theorem defending_never_expires :
    (handleCombatAction "defend" combatSt
      { baseOracle with enemyDamage := 10 }).1.player.status_effects =
      [("defending", 1)] ∧
    (handleCombatAction "defend" combatSt
      { baseOracle with enemyDamage := 10 }).1.player.hp = 47 ∧
    (handleCombatAction "dance"
      (handleCombatAction "defend" combatSt
        { baseOracle with enemyDamage := 10 }).1
      { baseOracle with enemyDamage := 10 }).1.player.hp = 44 ∧
    (handleCombatAction "dance"
      (handleCombatAction "defend" combatSt
        { baseOracle with enemyDamage := 10 }).1
      { baseOracle with enemyDamage := 10 }).1.player.status_effects =
      [("defending", 1)] := by
  decide

/-- C9: `add_xp` adds the amount, then checks the threshold once against the
pre-levelup level: it returns true and levels up exactly once iff the new
cumulative xp ≥ level × 100; a level-up never decreases max_hp, attack_power
or defense, and sets hp to the new max_hp. -/
theorem add_xp_spec (p : Player) (amount : Int) :
    ((p.add_xp amount).2 = true ↔ p.xp + amount ≥ p.level * 100) ∧
    (p.add_xp amount).1.xp = p.xp + amount ∧
    (p.add_xp amount).1.level =
      (if p.xp + amount ≥ p.level * 100 then p.level + 1 else p.level) ∧
    p.max_hp ≤ (p.add_xp amount).1.max_hp ∧
    p.attack_power ≤ (p.add_xp amount).1.attack_power ∧
    p.defense ≤ (p.add_xp amount).1.defense ∧
    ((p.add_xp amount).2 = true →
      (p.add_xp amount).1.hp = (p.add_xp amount).1.max_hp) := by
  unfold Player.add_xp Player.level_up
  by_cases h : p.xp + amount ≥ p.level * 100 <;> simp [h]

/-- Witness for C9 at the claim's concrete scenario: a level-1 player taken
from 90 to 110 xp levels up to 2 with hp reset to the new max_hp. -/
theorem add_xp_spec_witness :
    (Player.add_xp { aria with xp := 90, hp := 40 } 20).2 = true ∧
    (Player.add_xp { aria with xp := 90, hp := 40 } 20).1.level = 2 ∧
    (Player.add_xp { aria with xp := 90, hp := 40 } 20).1.hp =
      (Player.add_xp { aria with xp := 90, hp := 40 } 20).1.max_hp := by
  have h := add_xp_spec { aria with xp := 90, hp := 40 } 20
  have hflag : (Player.add_xp { aria with xp := 90, hp := 40 } 20).2 = true :=
    h.1.mpr (by decide)
  exact ⟨hflag, by decide, h.2.2.2.2.2.2 hflag⟩

/-- C7: for every movement command with direction `d` (lowercase, as every
dispatch path lowercases the command before the handler runs) from a location
whose exits do not contain `d`, the handler returns the message exactly equal
to "You cannot go {d} from here." with `next_situation` `exploration` and
leaves the entire world state — player, locations, combat flags — unchanged. -/
theorem movement_unknown_direction (st : GameWorld) (loc : Location)
    (d : String) (o : MoveOracle) (hlower : pyLower d = d)
    (hmiss : containsKey loc.exits d = false) :
    handleMovement d loc st o =
      (st, { message := "You cannot go " ++ d ++ " from here.",
             next_situation := "exploration" }) := by
  simp only [handleMovement, hlower, hmiss, Bool.not_false, if_true]

/-- Witness for C7: `"north"` from a location whose only exit is `south`. -/
theorem movement_unknown_direction_witness :
    handleMovement "north" clearing exploreSt dummyMove =
      (exploreSt, { message := "You cannot go north from here.",
                    next_situation := "exploration" }) :=
  movement_unknown_direction exploreSt clearing "north" dummyMove
    (by decide) (by decide)

/-- The take scan only returns cursor positions at or after its start. -/
theorem findTakeMatch_le (l : List Item) (n : String) (j i : Nat) (it : Item)
    (h : findTakeMatch l n j = some (i, it)) : j ≤ i := by
  induction l generalizing j with
  | nil => simp [findTakeMatch] at h
  | cons x xs ih =>
    rw [findTakeMatch] at h
    split at h
    · simp only [Option.some.injEq, Prod.mk.injEq] at h
      omega
    · split at h
      · simp only [Option.some.injEq, Prod.mk.injEq] at h
        omega
      · have := ih (j + 1) h
        omega

/-- The take scan returns the item stored at the returned position. -/
theorem findTakeMatch_get (l : List Item) (n : String) (j i : Nat) (it : Item)
    (h : findTakeMatch l n j = some (i, it)) : l.get? (i - j) = some it := by
  induction l generalizing j with
  | nil => simp [findTakeMatch] at h
  | cons x xs ih =>
    rw [findTakeMatch] at h
    split at h
    · simp only [Option.some.injEq, Prod.mk.injEq] at h
      obtain ⟨h1, h2⟩ := h
      subst h1; subst h2
      simp
    · split at h
      · simp only [Option.some.injEq, Prod.mk.injEq] at h
        obtain ⟨h1, h2⟩ := h
        subst h1; subst h2
        simp
      · have hle := findTakeMatch_le xs n (j + 1) i it h
        have hrec := ih (j + 1) h
        have harith : i - j = (i - (j + 1)) + 1 := by omega
        rw [harith]
        simpa using hrec

/-- Overwriting position `i` with a fresh element and then erasing that
element deletes exactly position `i`. -/
theorem set_erase_of_not_mem {α : Type} [DecidableEq α] :
    ∀ (l : List α) (i : Nat) (b : α), b ∉ l → i < l.length →
      (l.set i b).erase b = l.eraseIdx i := by
  intro l
  induction l with
  | nil => intro i b _ hi; simp at hi
  | cons x xs ih =>
    intro i b hb hi
    cases i with
    | zero => simp
    | succ n =>
      have hxb : ¬(x == b) = true := by
        simp only [beq_iff_eq]
        intro he
        exact hb (he ▸ List.mem_cons_self x xs)
      have hb2 : b ∉ xs := fun hm => hb (List.mem_cons_of_mem x hm)
      have hn : n < xs.length := by simpa using hi
      calc ((x :: xs).set (n + 1) b).erase b
      _ = (x :: xs.set n b).erase b := rfl
      _ = x :: (xs.set n b).erase b := by
            rw [List.erase_cons_tail]
            simpa using hxb
      _ = x :: xs.eraseIdx n := by rw [ih n b hb2 hn]
      _ = (x :: xs).eraseIdx (n + 1) := rfl

/-- C8 (amended): a `take <name>` command moves the first item of the
location's item list that matches the normalized name exactly
(case-insensitive, not yet taken) or partially (substring or all words, not
yet taken): that item — which an earlier partial match may make a different
item than the exact case-insensitive match — is removed from the location's
items, appended to the inventory with `is_taken` set to true, and the message
starts with "You pick up". -/
theorem take_moves_first_match (item_name : String) (loc : Location)
    (p : Player) (i : Nat) (it : Item) (hne : item_name ≠ "")
    (hfind : findTakeMatch loc.items
      (dropArticles (pyStrip (pyLower item_name))) 0 = some (i, it))
    (hnew : ({ it with is_taken := true } : Item) ∉ loc.items) :
    handleItemTake item_name loc p =
      ({ loc with items := loc.items.eraseIdx i },
       p.add_item { it with is_taken := true },
       { message := "You pick up the " ++ it.name ++ ".",
         next_situation := "exploration" }) := by
  have hbeq : (item_name == "") = false := by
    simpa using hne
  have hget : loc.items.get? i = some it := by
    simpa using findTakeMatch_get loc.items _ 0 i it hfind
  have hi : i < loc.items.length := by
    by_contra hcon
    rw [List.get?_eq_none.mpr (by omega)] at hget
    exact Option.noConfusion hget
  simp only [handleItemTake, hbeq, Bool.false_eq_true, if_false, hfind]
  rw [set_erase_of_not_mem loc.items i _ hnew hi]

/-- Witness for the amended C8 theorem: taking the sole potion of a
location. -/
theorem take_moves_first_match_witness :
    handleItemTake "health potion" { clearing with items := [healthPotion] } aria =
      ({ clearing with items := ([healthPotion] : List Item).eraseIdx 0 },
       aria.add_item { healthPotion with is_taken := true },
       { message := "You pick up the " ++ healthPotion.name ++ ".",
         next_situation := "exploration" }) :=
  take_moves_first_match "health potion" { clearing with items := [healthPotion] }
    aria 0 healthPotion (by decide) (by decide) (by decide)

/-- C8: counterexample. The location holds `big health potion` before
`Health Potion`; `take "health potion"` matches the claim's hypothesis (an
untaken item named "Health Potion" up to case), but the earlier item's
partial (substring) match shadows the exact match: `big health potion` is the
item moved to the inventory while `Health Potion` stays in the location. -/
theorem take_exact_match_shadowed :
    (handleItemTake "health potion" clearing aria).2.1.inventory =
      [{ bigPotion with is_taken := true }] ∧
    (handleItemTake "health potion" clearing aria).1.items = [healthPotion] ∧
    (handleItemTake "health potion" clearing aria).2.2.message =
      "You pick up the big health potion." ∧
    pyLower healthPotion.name = "health potion" ∧
    healthPotion.is_taken = false := by
  decide

/-- `equip_item` never touches the inventory list. -/
theorem equip_item_inventory (p : Player) (it : Item) :
    ((p.equip_item it).1).inventory = p.inventory := by
  unfold Player.equip_item
  split
  · split
    · rfl
    · cases h : p.equipped_weapon <;> rfl
  · split
    · split
      · rfl
      · cases h : p.equipped_armor <;> rfl
    · rfl

/-- After equipping a weapon, the `equipped_weapon` slot holds that item
(also when it was already equipped). -/
theorem equip_item_weapon (p : Player) (it : Item)
    (h : it.item_type = ItemType.weapon) :
    ((p.equip_item it).1).equipped_weapon = some it := by
  unfold Player.equip_item
  rw [h]
  rw [if_pos (by decide : (itemTypeValue ItemType.weapon == "weapon") = true)]
  split
  · next heq => exact beq_iff_eq.mp heq
  · cases h2 : p.equipped_weapon <;> rfl

/-- After equipping armor, the `equipped_armor` slot holds that item. -/
theorem equip_item_armor (p : Player) (it : Item)
    (h : it.item_type = ItemType.armor) :
    ((p.equip_item it).1).equipped_armor = some it := by
  unfold Player.equip_item
  rw [h]
  rw [if_neg (by decide : ¬(itemTypeValue ItemType.armor == "weapon") = true)]
  rw [if_pos (by decide : (itemTypeValue ItemType.armor == "armor") = true)]
  split
  · next heq => exact beq_iff_eq.mp heq
  · cases h2 : p.equipped_armor <;> rfl

/-- The combat-use name scan returns an inventory member. -/
theorem firstNameMatch_mem (items : List Item) (n : String) :
    ∀ (fuel j i : Nat) (it : Item),
      firstNameMatch fuel items n j = some (i, it) → it ∈ items := by
  intro fuel
  induction fuel with
  | zero =>
    intro j i it h
    exact Option.noConfusion h
  | succ fuel ih =>
    intro j i it h
    rw [firstNameMatch] at h
    by_cases hj : j < items.length
    · rw [dif_pos hj] at h
      split at h
      · simp only [Option.some.injEq, Prod.mk.injEq] at h
        exact h.2 ▸ items.get_mem _ _
      · exact ih (j + 1) i it h
    · rw [dif_neg hj] at h
      exact Option.noConfusion h

/-- When the first name match from the cursor is a weapon or armor item, the
combat-use loop early-returns the equip result, provided the fuel covers the
remaining sweep. -/
theorem combatUseLoop_first_equip :
    ∀ (fuel : Nat) (p : Player) (n : String) (texts : List String)
      (eff : Option String) (ea : Option Bool) (j i : Nat) (it : Item),
      firstNameMatch fuel p.inventory n j = some (i, it) →
      (it.item_type = ItemType.weapon ∨ it.item_type = ItemType.armor) →
      combatUseLoop fuel n p texts eff ea j =
        .inl ((p.equip_item it).1,
          { message := joinLines (texts ++ [(p.equip_item it).2.2]),
            next_situation := "combat",
            combat_effect :=
              if it.item_type == ItemType.weapon then some "equip_weapon"
              else some "equip_armor" }) := by
  intro fuel
  induction fuel with
  | zero =>
    intro p n texts eff ea j i it hfind hw
    exact Option.noConfusion hfind
  | succ fuel ih =>
    intro p n texts eff ea j i it hfind hw
    rw [firstNameMatch] at hfind
    rw [combatUseLoop]
    by_cases hj : j < p.inventory.length
    · rw [dif_pos hj] at hfind ⊢
      by_cases hname :
          (pyLower (p.inventory.get ⟨j, hj⟩).name == pyLower n) = true
      · rw [if_pos hname] at hfind
        simp only [Option.some.injEq, Prod.mk.injEq] at hfind
        obtain ⟨h1, h2⟩ := hfind
        subst h1
        subst h2
        rw [if_pos hname]
        have hwa : ((p.inventory.get ⟨j, hj⟩).item_type == ItemType.weapon ||
            (p.inventory.get ⟨j, hj⟩).item_type == ItemType.armor) = true := by
          rcases hw with h | h <;> rw [h] <;> rfl
        rw [if_pos hwa]
      · rw [if_neg hname] at hfind
        rw [if_neg hname]
        exact ih p n texts eff ea (j + 1) i it hfind hw
    · rw [dif_neg hj] at hfind
      exact Option.noConfusion hfind

/-- C6 (amended): equipping a weapon or armor item via `use <item>` during
combat leaves the item present in the inventory: the handler routes the
command through `equip_item`, which only updates the equipment slot and the
stat totals, so the inventory list is unchanged, the equipped slot holds the
very item that is still a member of the inventory, and combat continues.
(Outside combat, `_handle_item_use` instead applies the item's effects and
removes it from the inventory without equipping; see the counterexample.) -/
theorem combat_equip_preserves_inventory (st : GameWorld) (o : CombatOracle)
    (e : NPC) (cmd : String) (i : Nat) (it : Item)
    (henemy : st.current_enemy = some e)
    (hcmd : pyStartsWith cmd "use" = true)
    (hfind : firstNameMatch st.player.inventory.length st.player.inventory
      (pyStrip (cmd.drop 4)) 0 = some (i, it))
    (hw : it.item_type = ItemType.weapon ∨ it.item_type = ItemType.armor) :
    (handleCombatAction cmd st o).1.player.inventory = st.player.inventory ∧
    it ∈ (handleCombatAction cmd st o).1.player.inventory ∧
    (it.item_type = ItemType.weapon →
      (handleCombatAction cmd st o).1.player.equipped_weapon = some it) ∧
    (it.item_type = ItemType.armor →
      (handleCombatAction cmd st o).1.player.equipped_armor = some it) ∧
    (handleCombatAction cmd st o).2.next_situation = "combat" := by
  have hloop := combatUseLoop_first_equip st.player.inventory.length st.player
    (pyStrip (cmd.drop 4)) [] none none 0 i it hfind hw
  have hstep : handleCombatAction cmd st o =
      ({ st with player := (st.player.equip_item it).1 },
       { message := joinLines ([] ++ [(st.player.equip_item it).2.2]),
         next_situation := "combat",
         combat_effect :=
           if it.item_type == ItemType.weapon then some "equip_weapon"
           else some "equip_armor" }) := by
    simp only [handleCombatAction, henemy, hcmd, if_true, hloop]
  rw [hstep]
  refine ⟨equip_item_inventory st.player it, ?_, ?_, ?_, rfl⟩
  · rw [equip_item_inventory st.player it]
    exact firstNameMatch_mem st.player.inventory _ _ 0 i it hfind
  · intro h; exact equip_item_weapon st.player it h
  · intro h; exact equip_item_armor st.player it h

/-- Witness for the amended C6 theorem: `use wooden sword` during combat with
the sword in the inventory. -/
theorem combat_equip_preserves_inventory_witness :
    (handleCombatAction "use wooden sword" swordCombatSt baseOracle).1.player.inventory =
      swordCombatSt.player.inventory ∧
    woodenSword ∈
      (handleCombatAction "use wooden sword" swordCombatSt baseOracle).1.player.inventory ∧
    (handleCombatAction "use wooden sword" swordCombatSt baseOracle).1.player.equipped_weapon =
      some woodenSword ∧
    (handleCombatAction "use wooden sword" swordCombatSt baseOracle).2.next_situation =
      "combat" := by
  have h := combat_equip_preserves_inventory swordCombatSt baseOracle goblin
    "use wooden sword" 0 woodenSword rfl (by decide) (by decide) (Or.inl rfl)
  exact ⟨h.1, h.2.1, h.2.2.1 rfl, h.2.2.2.2⟩

/-- C6: counterexample. Outside combat, `use "wooden sword"` with the weapon
in the inventory goes through `_handle_item_use`: `Item.use` applies the
`damage_boost` effect (attack_power 5 → 7) and reports success, so the
handler removes the item — the inventory ends empty and `equipped_weapon` is
never set, contradicting the claim for the out-of-combat half of
"in or out of combat". -/
theorem use_weapon_out_of_combat_removes :
    (handleItemUse "wooden sword" clearing swordCarrier).1.inventory = [] ∧
    (handleItemUse "wooden sword" clearing swordCarrier).1.equipped_weapon = none ∧
    (handleItemUse "wooden sword" clearing swordCarrier).1.attack_power = 7 ∧
    (handleItemUse "wooden sword" clearing swordCarrier).2.message =
      "You use the Wooden Sword and increase attack power by 2." ∧
    woodenSword ∈ swordCarrier.inventory ∧
    woodenSword.item_type = ItemType.weapon := by
  decide

/-- The NPC scan only ever returns living NPCs. -/
theorem findNpc_not_defeated (l : List NPC) (key : String) :
    ∀ npc, findNpc l key = some npc → npc.is_defeated = false := by
  induction l with
  | nil => intro npc h; exact Option.noConfusion h
  | cons x xs ih =>
    intro npc h
    rw [findNpc] at h
    split at h
    · next hc =>
      cases h
      simp only [Bool.and_eq_true, Bool.not_eq_true'] at hc
      exact hc.2
    · exact ih npc h

/-- When every name-matching NPC is defeated, the scan finds nothing. -/
theorem findNpc_none (l : List NPC) (key : String)
    (hall : ∀ npc ∈ l, pyLower npc.name = key → npc.is_defeated = true) :
    findNpc l key = none := by
  induction l with
  | nil => rfl
  | cons x xs ih =>
    rw [findNpc]
    have hc : (pyLower x.name == key && !x.is_defeated) = false := by
      by_cases he : pyLower x.name = key
      · have hd := hall x (List.mem_cons_self x xs) he
        simp [hd]
      · simp [he]
    rw [if_neg (by simp [hc])]
    exact ih (fun npc hm he => hall npc (List.mem_cons_of_mem x hm) he)

/-- Index-scan counterpart of `findNpc_none`. -/
theorem findNpcIdx_none (l : List NPC) (key : String)
    (hall : ∀ npc ∈ l, pyLower npc.name = key → npc.is_defeated = true) :
    ∀ j, findNpcIdx l key j = none := by
  induction l with
  | nil => intro j; rfl
  | cons x xs ih =>
    intro j
    rw [findNpcIdx]
    have hc : (pyLower x.name == key && !x.is_defeated) = false := by
      by_cases he : pyLower x.name = key
      · have hd := hall x (List.mem_cons_self x xs) he
        simp [hd]
      · simp [he]
    rw [if_neg (by simp [hc])]
    exact ih (fun npc hm he => hall npc (List.mem_cons_of_mem x hm) he) (j + 1)

/-- C10: `Location.get_npc` never returns a defeated NPC, so the
"has already been defeated" branch of combat initiation and the "is in no
condition to talk" branch of dialog are unreachable: when every NPC matching
the target name (case-insensitively) is defeated, attacking yields
"You don't see {name} here to attack." and talking yields
"You don't see {name} here to talk to.", each with `next_situation`
`exploration` and the state unchanged. -/
theorem defeated_npcs_invisible :
    (∀ (loc : Location) (name : String) (npc : NPC),
      loc.get_npc name = some npc → npc.is_defeated = false) ∧
    (∀ (target : String) (loc : Location) (st : GameWorld) (o : CombatOracle),
      target ≠ "" →
      (∀ npc ∈ loc.npcs, pyLower npc.name = pyLower target →
        npc.is_defeated = true) →
      initiateCombat target loc st o =
        (st, { message := "You don\x27t see " ++ target ++ " here to attack.",
               next_situation := "exploration" })) ∧
    (∀ (target : String) (loc : Location) (st : GameWorld) (o : GenOutcome),
      target ≠ "" →
      (∀ npc ∈ loc.npcs, pyLower npc.name = pyLower target →
        npc.is_defeated = true) →
      handleDialog target loc st o =
        (st, { message := "You don\x27t see " ++ target ++ " here to talk to.",
               next_situation := "exploration" })) := by
  refine ⟨?_, ?_, ?_⟩
  · intro loc name npc h
    unfold Location.get_npc at h
    split at h
    · exact Option.noConfusion h
    · exact findNpc_not_defeated loc.npcs (pyLower name) npc h
  · intro target loc st o htarget hall
    have hbeq : (target == "") = false := by simpa using htarget
    have hnone := findNpcIdx_none loc.npcs (pyLower target) hall 0
    unfold initiateCombat
    rw [if_neg (by simp [hbeq]), hnone]
  · intro target loc st o htarget hall
    have hbeq : (target == "") = false := by simpa using htarget
    have hnone : loc.get_npc target = none := by
      unfold Location.get_npc
      rw [if_neg (by simp [hbeq])]
      exact findNpc_none loc.npcs (pyLower target) hall
    unfold handleDialog
    rw [if_neg (by simp [hbeq]), hnone]

/-- Witness for C10 at a location whose only NPC is a defeated goblin:
`get_npc` hides it, and both attacking and talking produce the
"You don't see ..." results. -/
theorem defeated_npcs_invisible_witness :
    graveyard.get_npc "goblin" = none ∧
    initiateCombat "goblin" graveyard exploreSt baseOracle =
      (exploreSt,
       { message := "You don\x27t see " ++ "goblin" ++ " here to attack.",
         next_situation := "exploration" }) ∧
    handleDialog "goblin" graveyard exploreSt GenOutcome.raised =
      (exploreSt,
       { message := "You don\x27t see " ++ "goblin" ++ " here to talk to.",
         next_situation := "exploration" }) := by
  refine ⟨by decide, ?_, ?_⟩
  · exact defeated_npcs_invisible.2.1 "goblin" graveyard exploreSt baseOracle
      (by decide) (by decide)
  · exact defeated_npcs_invisible.2.2 "goblin" graveyard exploreSt
      GenOutcome.raised (by decide) (by decide)

/-- Key membership agrees with lookup success. -/
theorem containsKey_eq_isSome_lookup {α : Type} (l : List (String × α)) (k : String) :
    containsKey l k = (List.lookup k l).isSome := by
  induction l with
  | nil => rfl
  | cons kv rest ih =>
    by_cases h : kv.1 = k
    · simp [containsKey, List.lookup, h]
    · simp [containsKey, List.lookup, ih,
        beq_eq_false_iff_ne.mpr h, beq_eq_false_iff_ne.mpr (Ne.symm h)]

/-- Assignment makes the key readable with the new value. -/
theorem lookup_setAssoc_self {α : Type} (l : List (String × α)) (k : String) (v : α) :
    List.lookup k (setAssoc l k v) = some v := by
  induction l with
  | nil => simp [setAssoc, List.lookup]
  | cons kv rest ih =>
    rw [setAssoc]
    by_cases h : kv.1 = k
    · rw [if_pos (by simpa using h)]
      simp [List.lookup]
    · rw [if_neg (by simpa using h)]
      simp [List.lookup, beq_eq_false_iff_ne.mpr (Ne.symm h), ih]

/-- Assignment leaves every other key unchanged. -/
theorem lookup_setAssoc_ne {α : Type} (l : List (String × α)) (k k2 : String)
    (v : α) (h : k2 ≠ k) :
    List.lookup k2 (setAssoc l k v) = List.lookup k2 l := by
  induction l with
  | nil => simp [setAssoc, List.lookup, beq_eq_false_iff_ne.mpr h]
  | cons kv rest ih =>
    rw [setAssoc]
    by_cases hk : kv.1 = k
    · rw [if_pos (by simpa using hk)]
      simp [List.lookup, beq_eq_false_iff_ne.mpr h, hk]
    · rw [if_neg (by simpa using hk)]
      by_cases h2 : k2 = kv.1
      · simp [List.lookup, h2]
      · simp [List.lookup, beq_eq_false_iff_ne.mpr h2, ih]

/-- `fillMissing` on a dict: keep it when the key is present, assign the
default otherwise. -/
theorem fillMissing_obj (m : List (String × Json)) (f : String) (d : Json) :
    fillMissing (.obj m) f d =
      .ok (if containsKey m f then .obj m else .obj (setAssoc m f d)) := by
  cases h : containsKey m f <;>
    simp [fillMissing, pythonIn, pythonSetItem, h, Bind.bind, Except.bind,
      pure, Except.pure]

/-- The defaults loop of `_validate_response` keeps the response a dict and
never disturbs a key that is already present. -/
theorem foldFill_obj (l : List (String × Json)) :
    ∀ (m : List (String × Json)),
      ∃ m2, List.foldlM (fun acc fd => fillMissing acc fd.1 fd.2) (Json.obj m) l =
        .ok (Json.obj m2) ∧
        (∀ f, containsKey m f = true →
          containsKey m2 f = true ∧ List.lookup f m2 = List.lookup f m) := by
  induction l with
  | nil => intro m; exact ⟨m, rfl, fun f h => ⟨h, rfl⟩⟩
  | cons fd rest ih =>
    intro m
    rw [List.foldlM_cons, fillMissing_obj]
    by_cases h : containsKey m fd.1 = true
    · rw [if_pos h]
      obtain ⟨m2, heq, hpres⟩ := ih m
      exact ⟨m2, by simpa [Except.bind] using heq, hpres⟩
    · rw [if_neg h]
      obtain ⟨m2, heq, hpres⟩ := ih (setAssoc m fd.1 fd.2)
      refine ⟨m2, by simpa [Except.bind] using heq, fun f hf => ?_⟩
      have hffd : f ≠ fd.1 := by
        intro he
        exact h (he ▸ hf)
      have h1 := hpres f (by
        rw [containsKey_eq_isSome_lookup, lookup_setAssoc_ne _ _ _ _ hffd,
          ← containsKey_eq_isSome_lookup]
        exact hf)
      exact ⟨h1.1, by rw [h1.2, lookup_setAssoc_ne _ _ _ _ hffd]⟩

/-- The required-fields loop of `_validate_response`: every response key is
preserved with its value, and every required field ends up present — filled
from the declared defaults when it was missing. -/
theorem requiredFold_spec (req : List String) (defaults : List (String × Json)) :
    ∀ (m : List (String × Json)),
      (∀ g ∈ req, (List.lookup g defaults).isSome = true) →
      ∃ m2, List.foldlM (fillRequired defaults) (Json.obj m) req =
        .ok (Json.obj m2) ∧
        (∀ f, containsKey m f = true →
          containsKey m2 f = true ∧ List.lookup f m2 = List.lookup f m) ∧
        (∀ f, f ∈ req → containsKey m2 f = true ∧
          (containsKey m f = false →
            List.lookup f m2 = List.lookup f defaults)) := by
  induction req with
  | nil =>
    intro m _
    exact ⟨m, rfl, fun f h => ⟨h, rfl⟩, fun f hf => absurd hf (List.not_mem_nil f)⟩
  | cons g rest ih =>
    intro m hreq
    obtain ⟨d, hd⟩ := Option.isSome_iff_exists.mp
      (hreq g (List.mem_cons_self g rest))
    have hrest : ∀ g2 ∈ rest, (List.lookup g2 defaults).isSome = true :=
      fun g2 hg2 => hreq g2 (List.mem_cons_of_mem g hg2)
    simp only [List.foldlM_cons, fillRequired, hd]
    rw [fillMissing_obj]
    by_cases hg : containsKey m g = true
    · rw [if_pos hg]
      obtain ⟨m2, heq, hpres, hreqc⟩ := ih m hrest
      refine ⟨m2, by simpa [Except.bind] using heq, hpres, fun f hf => ?_⟩
      rcases List.mem_cons.mp hf with rfl | hf2
      · exact ⟨(hpres f hg).1, fun hmf => absurd hg (by simp [hmf])⟩
      · exact hreqc f hf2
    · rw [if_neg hg]
      obtain ⟨m2, heq, hpres, hreqc⟩ := ih (setAssoc m g d) hrest
      have hmg : containsKey m g = false := by
        cases hcg : containsKey m g
        · rfl
        · exact absurd hcg hg
      refine ⟨m2, by simpa [Except.bind] using heq, fun f hf => ?_, fun f hf => ?_⟩
      · have hffd : f ≠ g := by
          intro he
          rw [he, hmg] at hf
          exact Bool.noConfusion hf
        have h1 := hpres f (by
          rw [containsKey_eq_isSome_lookup, lookup_setAssoc_ne _ _ _ _ hffd,
            ← containsKey_eq_isSome_lookup]
          exact hf)
        exact ⟨h1.1, by rw [h1.2, lookup_setAssoc_ne _ _ _ _ hffd]⟩
      · by_cases hfg : f = g
        · subst hfg
          have hkey : containsKey (setAssoc m f d) f = true := by
            rw [containsKey_eq_isSome_lookup, lookup_setAssoc_self]
            rfl
          have h1 := hpres f hkey
          exact ⟨h1.1, fun _ => by rw [h1.2, lookup_setAssoc_self, hd]⟩
        · rcases List.mem_cons.mp hf with rfl | hf2
          · exact absurd rfl hfg
          · have h2 := hreqc f hf2
            refine ⟨h2.1, fun hmf => ?_⟩
            have hmf2 : containsKey (setAssoc m g d) f = false := by
              rw [containsKey_eq_isSome_lookup, lookup_setAssoc_ne _ _ _ _ hfg,
                ← containsKey_eq_isSome_lookup]
              exact hmf
            exact h2.2 hmf2

/-- `_validate_response` on a dict response, for a prompt type with a
validator whose required fields all have defaults: the result is a dict in
which the field is present, filled from the defaults when it was missing. -/
theorem validateResponse_obj_spec (kind : String) (v : Validator)
    (m : List (String × Json)) (f : String)
    (hv : validators kind = some v) (hf : f ∈ v.required)
    (hdef : ∀ g ∈ v.required, (List.lookup g v.defaults).isSome = true) :
    ∃ m2, validateResponse (.obj m) kind = .ok (.obj m2) ∧
      containsKey m2 f = true ∧
      (containsKey m f = false →
        List.lookup f m2 = List.lookup f v.defaults) := by
  unfold validateResponse
  rw [hv]
  obtain ⟨m1, heq1, _hpres1, hreq1⟩ := requiredFold_spec v.required v.defaults m hdef
  obtain ⟨m2, heq2, hpres2⟩ := foldFill_obj v.defaults m1
  refine ⟨m2, ?_, ?_, ?_⟩
  · simp only [heq1]
    simpa [Bind.bind, Except.bind] using heq2
  · exact (hpres2 f (hreq1 f hf).1).1
  · intro hm
    rw [(hpres2 f (hreq1 f hf).1).2, (hreq1 f hf).2 hm]

/-- `generate_content` on a successfully parsed dict reply: every declared
required field of the kind is present in the returned dict, populated from
the declared defaults when the reply was missing it. -/
theorem generateContent_parsed_obj (kind : String)
    (params : List (String × Json)) (v : Validator)
    (m : List (String × Json)) (f : String)
    (hv : validators kind = some v) (hf : f ∈ v.required)
    (hdef : ∀ g ∈ v.required, (List.lookup g v.defaults).isSome = true) :
    (generateContent kind params (GenOutcome.parsed (Json.obj m))).hasKey f = true ∧
    (containsKey m f = false →
      (generateContent kind params (GenOutcome.parsed (Json.obj m))).lookupField f =
        List.lookup f v.defaults) := by
  obtain ⟨m2, heq, hck, hval⟩ := validateResponse_obj_spec kind v m f hv hf hdef
  have hgen : generateContent kind params (GenOutcome.parsed (Json.obj m)) =
      Json.obj m2 := by
    simp only [generateContent, generateContentCore, heq]
  constructor
  · rw [hgen]
    show (List.lookup f m2).isSome = true
    rw [← containsKey_eq_isSome_lookup]
    exact hck
  · intro hmf
    rw [hgen]
    show List.lookup f m2 = _
    exact hval hmf

/-- C5: `generate_content` never raises (it is total and every failure path
lands in a fallback); on a backend failure or a non-JSON reply it returns a
dict for every prompt kind — registered or not; and for every kind with a
declared validator, every required field is present in the returned dict on
each of those paths, and on a parsed dict reply a missing required field is
populated from the kind's declared defaults. -/
theorem generate_content_never_fails (kind : String)
    (params : List (String × Json)) (o : GenOutcome) :
    (∃ j, generateContent kind params o = j) ∧
    ((o = GenOutcome.raised ∨ ∃ s, o = GenOutcome.text s) →
      (generateContent kind params o).isObj = true) ∧
    (∀ v, validators kind = some v → ∀ f, f ∈ v.required →
      ((o = GenOutcome.raised ∨ ∃ s, o = GenOutcome.text s) →
        (generateContent kind params o).hasKey f = true) ∧
      (∀ m, o = GenOutcome.parsed (Json.obj m) →
        (generateContent kind params o).hasKey f = true ∧
        (containsKey m f = false →
          (generateContent kind params o).lookupField f =
            List.lookup f v.defaults))) := by
  refine ⟨⟨_, rfl⟩, ?_, ?_⟩
  · rintro (rfl | ⟨s, rfl⟩)
    · show (getFallbackResponse kind).isObj = true
      unfold getFallbackResponse
      split_ifs <;> rfl
    · show (formatNonJsonResponse s kind).isObj = true
      unfold formatNonJsonResponse
      split_ifs <;> rfl
  · intro v hv f hf
    have hk : kind = "location_description" ∨ kind = "search_response" ∨
        kind = "examine_response" ∨ kind = "action_response" := by
      by_contra hcon
      push_neg at hcon
      obtain ⟨h1, h2, h3, h4⟩ := hcon
      unfold validators at hv
      split at hv <;> simp_all
    have hdef : ∀ g ∈ v.required, (List.lookup g v.defaults).isSome = true := by
      rcases hk with rfl | rfl | rfl | rfl <;>
        (have hveq := Option.some.inj hv; subst hveq; decide)
    refine ⟨?_, ?_⟩
    · rintro (rfl | ⟨s, rfl⟩)
      · rcases hk with rfl | rfl | rfl | rfl <;>
          (have hveq := Option.some.inj hv; subst hveq; fin_cases hf <;> rfl)
      · rcases hk with rfl | rfl | rfl | rfl <;>
          (have hveq := Option.some.inj hv; subst hveq; fin_cases hf <;> rfl)
    · intro m hm
      subst hm
      exact generateContent_parsed_obj kind params v m f hv hf hdef

/-- Witness for C5: a backend failure for the registered
`location_description` kind yields a dict containing the required `name`
field, and for `dialog_response` — a kind with no registered template — the
call still returns a dict. -/
theorem generate_content_never_fails_witness :
    (generateContent "location_description" [] GenOutcome.raised).hasKey "name" = true ∧
    (generateContent "dialog_response" [] GenOutcome.raised).isObj = true ∧
    templateRegistered "dialog_response" = false := by
  have h1 := generate_content_never_fails "location_description" [] GenOutcome.raised
  have h2 := generate_content_never_fails "dialog_response" [] GenOutcome.raised
  refine ⟨?_, ?_, by decide⟩
  · exact (h1.2.2 _ rfl "name" (by decide)).1 (Or.inl rfl)
  · exact h2.2.1 (Or.inl rfl)

end AiDnD
